import Mathlib

/-!
Verification of the conversation state machine and generation-polling
protocol of `src/bot.py` (a Telegram bot driving the Leonardo image
generation API), as a shallow embedding in Lean.

Remote HTTP endpoints (prompt improvement, job submission, job status
polls, reference upload) are modelled by oracles supplied as explicit
environment records; each handler of the bot is translated into a pure
Lean function over the session record and these oracles, returning the
next conversation state, the updated session store entry, the chat
messages sent, and the trace of remote calls performed.
-/

/-- Conversation states, from the `States` enum of `src/bot.py`. -/
inductive States where
  | INITIAL_PROMPT
  | CHOOSING_PROMPT
  | REFERENCE_CHOICE
  | AWAITING_REFERENCE
  | GENERATING_IMAGE
  | ITERATING_IMAGE
deriving DecidableEq, Repr

/-- Reference image info stored by `handle_reference_image`:
`{'file_id': photo.file_id, 'file_path': file.file_path}`. -/
structure RefImage where
  fileId : String
  filePath : String
deriving DecidableEq, Repr

/-- Per-user session record (`self.user_data[user_id]`, a Python dict).
Each field is `Option` because the corresponding dict key may be absent. -/
structure Session where
  originalPrompt : Option String
  enhancedPrompt : Option String
  finalPrompt : Option String
  referenceImage : Option RefImage
  generatedImages : Option (List String)
deriving DecidableEq, Repr

/-- The empty session dict `{}` (all keys absent). -/
def Session.empty : Session :=
  { originalPrompt := none, enhancedPrompt := none, finalPrompt := none,
    referenceImage := none, generatedImages := none }

/-- Outbound chat messages: `reply_text` and `reply_photo` (with caption). -/
inductive Msg where
  | text (body : String)
  | photo (url : String) (caption : String)
deriving DecidableEq, Repr

/-- Remote calls performed against the Leonardo API, the Telegram file
endpoint, and the sleeps between them, in order of execution. -/
inductive RemoteAction where
  | improvePrompt
  | submitGeneration
  | pollStatus (attempt : Nat)
  | sleep (seconds : Nat)
  | requestUploadSlot
  | fetchReference
  | uploadS3
deriving DecidableEq, Repr

/-- One response of `GET /generations/{id}`: the HTTP status code, the
`generations_by_pk.status` field (absent keys give `none`, mirroring
`.get(...)`), and the urls of `generations_by_pk.generated_images`. -/
structure PollResp where
  statusCode : Nat
  jobStatus : Option String
  generatedImages : List String
deriving DecidableEq, Repr

/-- Result dict of the generation clients: `{'status': 'success',
'image_url': u}` or `{'status': 'error', 'error': m}`. -/
inductive GenResult where
  | success (imageUrl : String)
  | error (message : String)
deriving DecidableEq, Repr

/-- Everything a call to `generate_image` / `generate_image_with_reference`
produces: its result dict, the chat messages it sends through
`message_obj`, and the remote calls it performs. -/
structure GenOutcome where
  result : GenResult
  msgs : List Msg
  actions : List RemoteAction
deriving DecidableEq, Repr

/-- Oracle for `generate_image`: the status code of `POST /generations`,
the job id it returns, and the response of the i-th status poll. -/
structure GenEnv where
  submitStatus : Nat
  generationId : String
  poll : Nat → PollResp

/-- Oracle for `generate_image_with_reference`: status codes of the four
HTTP steps (`POST /init-image`, the Telegram file download, the S3 form
upload, `POST /generations`), the image id handed out by `/init-image`,
the job id, and the single final status check. The presigned `fields`
and `url` of `/init-image` are opaque pass-through data with no effect
on observable behaviour and are not modelled. -/
structure RefEnv where
  initStatus : Nat
  imageId : String
  fetchStatus : Nat
  s3Status : Nat
  submitStatus : Nat
  generationId : String
  finalCheck : PollResp

/-- Processing notice sent at the top of `generate_image`. -/
def processingScratchText : String :=
  "🎨 Generating your image...\nThis might take a minute or two. Please wait..."

/-- Processing notice sent at the top of `generate_image_with_reference`. -/
def processingReferenceText : String :=
  "🎨 Processing your reference image and generating new image...\nThis might take a minute or two. Please wait..."

/-- Error string of the exhausted polling loop in `generate_image`. -/
def timedOutText : String :=
  "Generation timed out or failed to complete"

/-- Error string of the failed single status check in
`generate_image_with_reference`. -/
def refCheckFailedText : String :=
  "Failed to get generated image"

/-- The polling loop of `generate_image` (`for attempt in
range(max_attempts)` with `max_attempts = 30`, `poll_interval = 2`).
Each iteration performs one `GET /generations/{id}`; if it returns
HTTP 200 with `status == 'COMPLETE'` and a non-empty
`generated_images` list, the loop returns success with the first
image url; otherwise it sleeps `poll_interval` seconds (the sleep is
at loop-body level in the source, so it runs regardless of the poll
status code) and continues.  `fuel` is the number of attempts left. -/
def pollLoop (poll : Nat → PollResp) : Nat → Nat → GenResult × List RemoteAction
  | _, 0 => (GenResult.error timedOutText, [])
  | attempt, fuel + 1 =>
    let r := poll attempt
    let next := pollLoop poll (attempt + 1) fuel
    let keep : GenResult × List RemoteAction :=
      (next.1, RemoteAction.pollStatus attempt :: RemoteAction.sleep 2 :: next.2)
    if r.statusCode = 200 then
      if r.jobStatus = some "COMPLETE" then
        match r.generatedImages with
        | u :: _ => (GenResult.success u, [RemoteAction.pollStatus attempt])
        | [] => keep
      else keep
    else keep

/-- `generate_image` of `src/bot.py`: sends the processing notice,
submits the job (`POST /generations`), and on HTTP 200 enters the
30-attempt polling loop.  The `prompt` only feeds the request payload
and does not influence the observable outcome given the oracle. -/
def generate_image (env : GenEnv) (prompt : String) : GenOutcome :=
  let msgs := [Msg.text processingScratchText]
  if env.submitStatus ≠ 200 then
    { result := GenResult.error ("Generation failed with status " ++ toString env.submitStatus),
      msgs := msgs, actions := [RemoteAction.submitGeneration] }
  else
    let lp := pollLoop env.poll 0 30
    { result := lp.1, msgs := msgs, actions := RemoteAction.submitGeneration :: lp.2 }

/-- `generate_image_with_reference` of `src/bot.py`: processing notice,
then `POST /init-image`, download of the Telegram file, S3 form upload
(success is HTTP 204), `POST /generations`, a single fixed
`time.sleep(20)`, and exactly one status check whose success condition
is HTTP 200 plus a non-empty `generated_images` list.  Each failed
step raises and the surrounding `except` converts the exception text
into the error result. -/
def generate_image_with_reference (env : RefEnv) (prompt : String) (image_url : String) :
    GenOutcome :=
  let msgs := [Msg.text processingReferenceText]
  if env.initStatus ≠ 200 then
    { result := GenResult.error "Failed to get presigned URL from Leonardo",
      msgs := msgs, actions := [RemoteAction.requestUploadSlot] }
  else if env.fetchStatus ≠ 200 then
    { result := GenResult.error "Failed to download image from Telegram",
      msgs := msgs, actions := [RemoteAction.requestUploadSlot, RemoteAction.fetchReference] }
  else if env.s3Status ≠ 204 then
    { result := GenResult.error "Failed to upload to S3",
      msgs := msgs,
      actions := [RemoteAction.requestUploadSlot, RemoteAction.fetchReference,
        RemoteAction.uploadS3] }
  else if env.submitStatus ≠ 200 then
    { result := GenResult.error ("Generation failed with status " ++ toString env.submitStatus),
      msgs := msgs,
      actions := [RemoteAction.requestUploadSlot, RemoteAction.fetchReference,
        RemoteAction.uploadS3, RemoteAction.submitGeneration] }
  else
    let acts := [RemoteAction.requestUploadSlot, RemoteAction.fetchReference,
      RemoteAction.uploadS3, RemoteAction.submitGeneration,
      RemoteAction.sleep 20, RemoteAction.pollStatus 0]
    if env.finalCheck.statusCode = 200 then
      match env.finalCheck.generatedImages with
      | u :: _ => { result := GenResult.success u, msgs := msgs, actions := acts }
      | [] => { result := GenResult.error refCheckFailedText, msgs := msgs, actions := acts }
    else
      { result := GenResult.error refCheckFailedText, msgs := msgs, actions := acts }

/-- A poll response that makes the loop of `generate_image` return:
HTTP 200, job status `COMPLETE`, at least one generated image. -/
def isHit (r : PollResp) : Prop :=
  r.statusCode = 200 ∧ r.jobStatus = some "COMPLETE" ∧ r.generatedImages ≠ []

instance (r : PollResp) : Decidable (isHit r) := by
  unfold isHit; exact inferInstance

/-- The remote trace of `n` consecutive unsuccessful poll attempts
starting at `start`, each followed by the 2-second sleep. -/
def pollSleepTrace (start : Nat) : Nat → List RemoteAction
  | 0 => []
  | n + 1 =>
    RemoteAction.pollStatus start :: RemoteAction.sleep 2 :: pollSleepTrace (start + 1) n

/-- Number of status polls in a remote trace. -/
def pollCount (tr : List RemoteAction) : Nat :=
  tr.countP fun a => match a with
    | RemoteAction.pollStatus _ => true
    | _ => false

theorem pollCount_pollSleepTrace (n : Nat) : ∀ start, pollCount (pollSleepTrace start n) = n := by
  induction n with
  | zero => intro start; rfl
  | succ n ih =>
    intro start
    simp only [pollSleepTrace, pollCount, List.countP_cons] at *
    simp [ih (start + 1)]

theorem pollLoop_miss (poll : Nat → PollResp) (attempt fuel : Nat)
    (h : ¬ isHit (poll attempt)) :
    pollLoop poll attempt (fuel + 1) =
      ((pollLoop poll (attempt + 1) fuel).1,
        RemoteAction.pollStatus attempt :: RemoteAction.sleep 2 ::
          (pollLoop poll (attempt + 1) fuel).2) := by
  unfold isHit at h
  push_neg at h
  conv_lhs => rw [pollLoop]
  by_cases h200 : (poll attempt).statusCode = 200
  · by_cases hc : (poll attempt).jobStatus = some "COMPLETE"
    · have himg : (poll attempt).generatedImages = [] := h h200 hc
      simp [h200, hc, himg]
    · simp [h200, hc]
  · simp [h200]

theorem pollLoop_hit (poll : Nat → PollResp) (attempt fuel : Nat)
    (h200 : (poll attempt).statusCode = 200)
    (hc : (poll attempt).jobStatus = some "COMPLETE")
    (u : String) (rest : List String)
    (himg : (poll attempt).generatedImages = u :: rest) :
    pollLoop poll attempt (fuel + 1) =
      (GenResult.success u, [RemoteAction.pollStatus attempt]) := by
  conv_lhs => rw [pollLoop]
  simp [h200, hc, himg]

theorem pollLoop_timeout (poll : Nat → PollResp) :
    ∀ (fuel start : Nat), (∀ i, start ≤ i → i < start + fuel → ¬ isHit (poll i)) →
    pollLoop poll start fuel = (GenResult.error timedOutText, pollSleepTrace start fuel) := by
  intro fuel
  induction fuel with
  | zero => intro start _; rfl
  | succ n ih =>
    intro start hmiss
    have hm0 : ¬ isHit (poll start) := hmiss start (Nat.le_refl _) (by omega)
    rw [pollLoop_miss poll start n hm0]
    have hrec := ih (start + 1) (fun i h1 h2 => hmiss i (by omega) (by omega))
    rw [hrec]
    rfl

theorem pollLoop_success (poll : Nat → PollResp) :
    ∀ (j fuel start : Nat), j < fuel →
    (∀ i, start ≤ i → i < start + j → ¬ isHit (poll i)) →
    ∀ u rest, (poll (start + j)).statusCode = 200 →
      (poll (start + j)).jobStatus = some "COMPLETE" →
      (poll (start + j)).generatedImages = u :: rest →
    pollLoop poll start fuel =
      (GenResult.success u,
        pollSleepTrace start j ++ [RemoteAction.pollStatus (start + j)]) := by
  intro j
  induction j with
  | zero =>
    intro fuel start hj hmiss u rest h200 hc himg
    obtain ⟨f, rfl⟩ : ∃ f, fuel = f + 1 := ⟨fuel - 1, by omega⟩
    rw [Nat.add_zero] at h200 hc himg
    rw [pollLoop_hit poll start f h200 hc u rest himg]
    simp [pollSleepTrace]
  | succ n ih =>
    intro fuel start hj hmiss u rest h200 hc himg
    obtain ⟨f, rfl⟩ : ∃ f, fuel = f + 1 := ⟨fuel - 1, by omega⟩
    have hm0 : ¬ isHit (poll start) := hmiss start (Nat.le_refl _) (by omega)
    rw [pollLoop_miss poll start f hm0]
    have harr : start + 1 + n = start + (n + 1) := by omega
    have hrec := ih f (start + 1) (by omega)
      (fun i h1 h2 => hmiss i (by omega) (by omega)) u rest
      (by rw [harr]; exact h200) (by rw [harr]; exact hc) (by rw [harr]; exact himg)
    rw [hrec]
    simp [pollSleepTrace, harr]

/-- C2. In the no-reference path, if the job status endpoint first reports
COMPLETE with at least one image on the k-th poll (1 ≤ k ≤ 30), then after a
successful submission `generate_image` returns success with that first
image's url, having performed exactly k status polls with a 2-second sleep
between consecutive polls; and if no poll within the 30-attempt budget ever
reports COMPLETE with an image, it returns the timed-out error after exactly
30 polls. -/
theorem c2_generate_polling :
    (∀ (env : GenEnv) (p : String) (k : Nat), 1 ≤ k → k ≤ 30 →
      env.submitStatus = 200 →
      (∀ i, i < k - 1 → ¬ isHit (env.poll i)) →
      ∀ u rest, (env.poll (k - 1)).statusCode = 200 →
        (env.poll (k - 1)).jobStatus = some "COMPLETE" →
        (env.poll (k - 1)).generatedImages = u :: rest →
      (generate_image env p).result = GenResult.success u ∧
      (generate_image env p).actions =
        RemoteAction.submitGeneration ::
          (pollSleepTrace 0 (k - 1) ++ [RemoteAction.pollStatus (k - 1)]) ∧
      pollCount (generate_image env p).actions = k) ∧
    (∀ (env : GenEnv) (p : String), env.submitStatus = 200 →
      (∀ i, i < 30 → ¬ isHit (env.poll i)) →
      (generate_image env p).result = GenResult.error timedOutText ∧
      (generate_image env p).actions =
        RemoteAction.submitGeneration :: pollSleepTrace 0 30 ∧
      pollCount (generate_image env p).actions = 30) := by
  constructor
  · intro env p k hk1 hk30 hsub hmiss u rest h200 hc himg
    have hpl := pollLoop_success env.poll (k - 1) 30 0 (by omega)
      (fun i _ h2 => hmiss i (by omega)) u rest
      (by simpa using h200) (by simpa using hc) (by simpa using himg)
    rw [Nat.zero_add] at hpl
    have hcnt : pollCount (pollSleepTrace 0 (k - 1)) = k - 1 :=
      pollCount_pollSleepTrace (k - 1) 0
    refine ⟨?_, ?_, ?_⟩
    · simp [generate_image, hsub, hpl]
    · simp [generate_image, hsub, hpl]
    · simp only [generate_image, hsub, ne_eq, not_true_eq_false, if_false, hpl]
      simp only [pollCount, List.countP_cons, List.countP_append] at hcnt ⊢
      simp at hcnt ⊢
      omega
  · intro env p hsub hmiss
    have hpl := pollLoop_timeout env.poll 30 0 (fun i _ h2 => hmiss i (by omega))
    have hcnt : pollCount (pollSleepTrace 0 30) = 30 :=
      pollCount_pollSleepTrace 30 0
    refine ⟨?_, ?_, ?_⟩
    · simp [generate_image, hsub, hpl]
    · simp [generate_image, hsub, hpl]
    · simp only [generate_image, hsub, ne_eq, not_true_eq_false, if_false, hpl]
      simp only [pollCount, List.countP_cons] at hcnt ⊢
      simp at hcnt ⊢
      omega

/-- Mock job for the C2 witness: pending on the first two polls, COMPLETE
with one image on the third. -/
def c2WitEnv : GenEnv :=
  { submitStatus := 200, generationId := "job-1",
    poll := fun i =>
      if i < 2 then { statusCode := 200, jobStatus := some "PENDING", generatedImages := [] }
      else { statusCode := 200, jobStatus := some "COMPLETE",
             generatedImages := ["http://img/1.png"] } }

/-- Witness for C2 at k = 3: success with the image of the third poll after
exactly three polls. -/
theorem c2_generate_polling_witness :
    (generate_image c2WitEnv "a frog").result = GenResult.success "http://img/1.png" ∧
    pollCount (generate_image c2WitEnv "a frog").actions = 3 := by
  have h := c2_generate_polling.1 c2WitEnv "a frog" 3 (by omega) (by omega) rfl
    (fun i hi => by
      have h2 : i < 2 := by omega
      simp only [c2WitEnv, h2, if_true]
      decide)
    "http://img/1.png" [] (by decide) (by decide) (by decide)
  exact ⟨h.1, h.2.2⟩

theorem generate_image_timeout_of_no_hit (env : GenEnv) (p : String)
    (hsub : env.submitStatus = 200)
    (hmiss : ∀ i, i < 30 → ¬ isHit (env.poll i)) :
    (generate_image env p).result = GenResult.error timedOutText ∧
    pollCount (generate_image env p).actions = 30 := by
  have hpl := pollLoop_timeout env.poll 30 0 (fun i _ h2 => hmiss i (by omega))
  have hcnt : pollCount (pollSleepTrace 0 30) = 30 :=
    pollCount_pollSleepTrace 30 0
  constructor
  · simp [generate_image, hsub, hpl]
  · simp only [generate_image, hsub, ne_eq, not_true_eq_false, if_false, hpl]
    simp only [pollCount, List.countP_cons] at hcnt ⊢
    simp at hcnt ⊢
    omega

/-- Mock job for the C3 counterexample: the first poll reports COMPLETE
with zero images, the second poll reports COMPLETE with one image. -/
def c3Env : GenEnv :=
  { submitStatus := 200, generationId := "job-2",
    poll := fun i =>
      if i = 0 then { statusCode := 200, jobStatus := some "COMPLETE", generatedImages := [] }
      else { statusCode := 200, jobStatus := some "COMPLETE",
             generatedImages := ["http://img/a.png"] } }

/-- C3 counterexample. A poll reporting COMPLETE with zero images does NOT
cause `generate_image` to return the timed-out error: here the first poll
reports COMPLETE with zero images (and is actually performed, as the trace
shows), yet the call returns success with the image of the second poll. -/
theorem c3_counterexample :
    c3Env.poll 0 =
      { statusCode := 200, jobStatus := some "COMPLETE", generatedImages := [] } ∧
    RemoteAction.pollStatus 0 ∈ (generate_image c3Env "a frog").actions ∧
    (generate_image c3Env "a frog").result = GenResult.success "http://img/a.png" ∧
    (generate_image c3Env "a frog").result ≠ GenResult.error timedOutText := by
  decide

/-- C3 amended. A poll reporting COMPLETE with zero produced images does not
terminate the loop of `generate_image`; the loop keeps polling, and if every
poll of the 30-attempt budget reports COMPLETE with zero images,
`generate_image` returns the timed-out error after exactly 30 polls. -/
theorem c3_complete_with_zero_images :
    ∀ (env : GenEnv) (p : String), env.submitStatus = 200 →
    (∀ i, i < 30 → (env.poll i).statusCode = 200 ∧
      (env.poll i).jobStatus = some "COMPLETE" ∧ (env.poll i).generatedImages = []) →
    (generate_image env p).result = GenResult.error timedOutText ∧
    pollCount (generate_image env p).actions = 30 := by
  intro env p hsub hall
  refine generate_image_timeout_of_no_hit env p hsub ?_
  intro i hi
  obtain ⟨h1, h2, h3⟩ := hall i hi
  unfold isHit
  simp [h3]

/-- Mock job for the C3 witness: every poll reports COMPLETE with zero
images. -/
def c3WitEnv : GenEnv :=
  { submitStatus := 200, generationId := "job-3",
    poll := fun _ =>
      { statusCode := 200, jobStatus := some "COMPLETE", generatedImages := [] } }

/-- Witness for the amended C3: with every poll COMPLETE-and-empty, the call
times out after 30 polls. -/
theorem c3_complete_with_zero_images_witness :
    (generate_image c3WitEnv "a frog").result = GenResult.error timedOutText ∧
    pollCount (generate_image c3WitEnv "a frog").actions = 30 :=
  c3_complete_with_zero_images c3WitEnv "a frog" rfl (fun i _ => ⟨rfl, rfl, rfl⟩)

/-- C4. If the direct S3 upload of the reference bytes answers with any
status other than 204 (after the upload-slot request and the Telegram
download succeeded), `generate_image_with_reference` returns the
upload-failure error and never calls the generation submission endpoint. -/
theorem c4_upload_failure_blocks_submission :
    ∀ (env : RefEnv) (p iu : String), env.initStatus = 200 → env.fetchStatus = 200 →
    env.s3Status ≠ 204 →
    (generate_image_with_reference env p iu).result =
      GenResult.error "Failed to upload to S3" ∧
    RemoteAction.submitGeneration ∉ (generate_image_with_reference env p iu).actions := by
  intro env p iu h1 h2 h3
  simp [generate_image_with_reference, h1, h2, h3]

/-- Mock upload endpoint for the C4 witness: S3 answers 403. -/
def c4WitEnv : RefEnv :=
  { initStatus := 200, imageId := "img-1", fetchStatus := 200, s3Status := 403,
    submitStatus := 200, generationId := "job-4",
    finalCheck := { statusCode := 200, jobStatus := some "COMPLETE",
                    generatedImages := ["http://img/b.png"] } }

/-- Witness for C4 at a 403 upload response. -/
theorem c4_upload_failure_blocks_submission_witness :
    (generate_image_with_reference c4WitEnv "a frog" "http://tg/file.jpg").result =
      GenResult.error "Failed to upload to S3" ∧
    RemoteAction.submitGeneration ∉
      (generate_image_with_reference c4WitEnv "a frog" "http://tg/file.jpg").actions :=
  c4_upload_failure_blocks_submission c4WitEnv "a frog" "http://tg/file.jpg" rfl rfl
    (by decide)

/-- C5. After a successful submission, `generate_image_with_reference`
performs exactly one status check preceded by one fixed 20-second sleep (the
remote trace is literally the four setup calls, one sleep of 20 and one
status check -- no polling loop), returning success with the first image url
if that single check answers 200 with a non-empty `generated_images` list,
and an error result otherwise. -/
theorem c5_reference_single_check :
    ∀ (env : RefEnv) (p iu : String), env.initStatus = 200 → env.fetchStatus = 200 →
    env.s3Status = 204 → env.submitStatus = 200 →
    (generate_image_with_reference env p iu).actions =
      [RemoteAction.requestUploadSlot, RemoteAction.fetchReference, RemoteAction.uploadS3,
       RemoteAction.submitGeneration, RemoteAction.sleep 20, RemoteAction.pollStatus 0] ∧
    (∀ u rest, env.finalCheck.statusCode = 200 →
      env.finalCheck.generatedImages = u :: rest →
      (generate_image_with_reference env p iu).result = GenResult.success u) ∧
    ((env.finalCheck.statusCode ≠ 200 ∨ env.finalCheck.generatedImages = []) →
      (generate_image_with_reference env p iu).result =
        GenResult.error refCheckFailedText) := by
  intro env p iu h1 h2 h3 h4
  refine ⟨?_, ?_, ?_⟩
  · by_cases hfc : env.finalCheck.statusCode = 200
    · cases himg : env.finalCheck.generatedImages <;>
        simp [generate_image_with_reference, h1, h2, h3, h4, hfc, himg]
    · simp [generate_image_with_reference, h1, h2, h3, h4, hfc]
  · intro u rest hfc himg
    simp [generate_image_with_reference, h1, h2, h3, h4, hfc, himg]
  · intro hbad
    rcases hbad with hfc | himg
    · simp [generate_image_with_reference, h1, h2, h3, h4, hfc]
    · by_cases hfc : env.finalCheck.statusCode = 200 <;>
        simp [generate_image_with_reference, h1, h2, h3, h4, hfc, himg]

/-- Mock endpoints for the C5 witness: every step succeeds and the single
check returns one image. -/
def c5WitEnv : RefEnv :=
  { initStatus := 200, imageId := "img-2", fetchStatus := 200, s3Status := 204,
    submitStatus := 200, generationId := "job-5",
    finalCheck := { statusCode := 200, jobStatus := some "COMPLETE",
                    generatedImages := ["http://img/c.png"] } }

/-- Witness for C5: the full trace with its single sleep-then-check suffix,
and success with the image of that single check. -/
theorem c5_reference_single_check_witness :
    (generate_image_with_reference c5WitEnv "a frog" "http://tg/file.jpg").actions =
      [RemoteAction.requestUploadSlot, RemoteAction.fetchReference, RemoteAction.uploadS3,
       RemoteAction.submitGeneration, RemoteAction.sleep 20, RemoteAction.pollStatus 0] ∧
    (generate_image_with_reference c5WitEnv "a frog" "http://tg/file.jpg").result =
      GenResult.success "http://img/c.png" := by
  have h := c5_reference_single_check c5WitEnv "a frog" "http://tg/file.jpg" rfl rfl rfl rfl
  exact ⟨h.1, h.2.1 "http://img/c.png" [] rfl rfl⟩

/-- Boolean substring test on character lists (used to model the Python
`'too long' in error_msg.lower()` check). -/
def strContainsAux (needle : List Char) : List Char → Bool
  | [] => List.isPrefixOf needle []
  | c :: cs => List.isPrefixOf needle (c :: cs) || strContainsAux needle cs

/-- Boolean substring test on strings. -/
def strContains (haystack needle : String) : Bool :=
  strContainsAux needle.toList haystack.toList

/-- Message of `handle_initial_prompt` on a too-long prompt (carries the
character count of the rejected prompt). -/
def tooLongText (n : Nat) : String :=
  "📝 Your prompt is too long! Please keep it under 200 characters.\n\nCurrent length: "
    ++ toString n ++ " characters\n\nPlease try again with a shorter description."

/-- Message of `handle_initial_prompt` on any other non-200 improvement
response. -/
def refineFailText : String :=
  "Sorry, I had trouble enhancing your prompt. Would you like to try again?"

/-- Message of the `except` branch of `handle_initial_prompt`. -/
def refineErrorText : String :=
  "Sorry, there was an error enhancing your prompt. Would you like to try again?"

/-- Three-way prompt choice question of `handle_initial_prompt`. -/
def promptChoiceText (original enhanced : String) : String :=
  "I\x27ve enhanced your prompt. Here\x27s what I suggest:\n\nOriginal: " ++ original
    ++ "\nEnhanced: " ++ enhanced
    ++ "\n\nWould you like to:\n1️⃣ Use this enhanced prompt\n2️⃣ Try another enhancement\n3️⃣ Use your original prompt\nPlease respond with 1, 2, or 3"

/-- Re-prompt of `handle_prompt_choice` on invalid input. -/
def repromptChoosingText : String :=
  "Please respond with 1, 2, or 3:\n1️⃣ Use enhanced prompt\n2️⃣ Try another enhancement\n3️⃣ Use original prompt"

/-- Reference-image question of `handle_prompt_choice`. -/
def referenceQuestionText : String :=
  "Do you have a reference image you\x27d like to use?\n1️⃣ Yes, I\x27ll upload an image\n2️⃣ No, generate from scratch\nPlease respond with 1 or 2"

/-- Re-prompt of `handle_reference_choice` on invalid input. -/
def repromptReferenceText : String :=
  "Please respond with 1 or 2:\n1️⃣ Yes, I\x27ll upload an image\n2️⃣ No, generate from scratch"

/-- Photo request of `handle_reference_choice` on choice "1". -/
def uploadRequestText : String :=
  "Please upload your reference image."

/-- Soft-failure message of `handle_reference_image` when the session lacks
a final prompt. -/
def lostTrackText : String :=
  "Sorry, I\x27ve lost track of your prompt. Let\x27s start over.\nPlease provide a new prompt for your image."

/-- Re-prompt of `handle_image_iteration` on invalid input. -/
def repromptIterationText : String :=
  "Please respond with 1 or 2:\n1️⃣ Try again\n2️⃣ Modify the prompt"

/-- New-prompt request of `handle_image_iteration` on choice "2". -/
def newPromptText : String :=
  "Please provide a new prompt for your image."

/-- Error message of `start_image_generation` (single newlines), used both
for an error result and in its `except` branch. -/
def genErrorText : String :=
  "Sorry, there was an error generating the images. Would you like to:\n1️⃣ Try again\n2️⃣ Modify the prompt\nPlease respond with 1 or 2"

/-- Success caption of `start_image_generation` (two-choice follow-up
embedded in the photo caption). -/
def successCaptionText : String :=
  "Here\x27s your generated image! Would you like to:\n1️⃣ Try again\n2️⃣ Modify the prompt\nPlease respond with 1 or 2"

/-- Error message of the `except` branch of `handle_image_generation`
(double newlines, unlike `genErrorText`). -/
def higErrorText : String :=
  "Sorry, there was an error generating the images. Would you like to:\n\n1️⃣ Try again\n2️⃣ Modify the prompt\n\nPlease respond with 1 or 2"

/-- Three-choice follow-up of the success branch of
`handle_image_generation` (src/bot.py lines 257-263); that branch is
unreachable, see `handle_image_generation` below. -/
def followUpText : String :=
  "What would you like to do?\n\n1️⃣ Use this image\n2️⃣ Generate new variations\n3️⃣ Modify the prompt\n\nPlease respond with a number 1-3"

/-- Outcome of one `POST /prompt/improve` call: a response with its HTTP
status, the `error` field of its body (the `.get('error', 'Unknown error')`
default already applied) and the `promptGeneration.prompt` field; or a
raised exception (network/parse failure). -/
inductive ImproveOutcome where
  | resp (statusCode : Nat) (errorField : String) (improvedPrompt : String)
  | exn
deriving DecidableEq, Repr

/-- Oracle environment for one conversation step: the improvement endpoint,
the two generation clients and Telegram's `get_file`. -/
structure Env where
  improve : ImproveOutcome
  gen : GenEnv
  genRef : RefEnv
  getFile : String → String

/-- Observable outcome of one handler invocation: the `States` value it
returns, the session-store entry for the user afterwards, the chat messages
sent (in order), and the remote calls performed. -/
structure StepOut where
  nextState : States
  store : Option Session
  msgs : List Msg
  actions : List RemoteAction
deriving DecidableEq, Repr

/-- `handle_initial_prompt`: overwrites the session with
`{'original_prompt': user_text}` (before the `try`, so in every branch),
calls `POST /prompt/improve`; on 200 stores the enhanced prompt and asks
the three-way choice; on non-200 distinguishes the too-long error by
substring match on the lower-cased `error` field; an exception yields the
generic error message.  Non-200 and exception branches stay at
`INITIAL_PROMPT`. -/
def handle_initial_prompt (env : Env) (user_text : String) (_store : Option Session) :
    StepOut :=
  let fresh : Session :=
    { originalPrompt := some user_text, enhancedPrompt := none, finalPrompt := none,
      referenceImage := none, generatedImages := none }
  match env.improve with
  | ImproveOutcome.exn =>
    { nextState := States.INITIAL_PROMPT, store := some fresh,
      msgs := [Msg.text refineErrorText], actions := [RemoteAction.improvePrompt] }
  | ImproveOutcome.resp code errField improved =>
    if code ≠ 200 then
      if strContains errField.toLower "too long" then
        { nextState := States.INITIAL_PROMPT, store := some fresh,
          msgs := [Msg.text (tooLongText user_text.length)],
          actions := [RemoteAction.improvePrompt] }
      else
        { nextState := States.INITIAL_PROMPT, store := some fresh,
          msgs := [Msg.text refineFailText], actions := [RemoteAction.improvePrompt] }
    else
      { nextState := States.CHOOSING_PROMPT,
        store := some { fresh with enhancedPrompt := some improved },
        msgs := [Msg.text (promptChoiceText user_text improved)],
        actions := [RemoteAction.improvePrompt] }

/-- `start_image_generation`: reads the session via `.get(user_id, {})`,
dispatches to the reference / no-reference generation client with the
session's final prompt, and in every branch (success, error result or
caught exception -- including the `KeyError` when `final_prompt` is absent)
returns `ITERATING_IMAGE` without mutating the session. -/
def start_image_generation (env : Env) (store : Option Session) : StepOut :=
  let ud := store.getD Session.empty
  match ud.referenceImage with
  | some ri =>
    match ud.finalPrompt with
    | none =>
      { nextState := States.ITERATING_IMAGE, store := store,
        msgs := [Msg.text genErrorText], actions := [] }
    | some fp =>
      let out := generate_image_with_reference env.genRef fp ri.filePath
      match out.result with
      | GenResult.success u =>
        { nextState := States.ITERATING_IMAGE, store := store,
          msgs := out.msgs ++ [Msg.photo u successCaptionText], actions := out.actions }
      | GenResult.error _ =>
        { nextState := States.ITERATING_IMAGE, store := store,
          msgs := out.msgs ++ [Msg.text genErrorText], actions := out.actions }
  | none =>
    match ud.finalPrompt with
    | none =>
      { nextState := States.ITERATING_IMAGE, store := store,
        msgs := [Msg.text genErrorText], actions := [] }
    | some fp =>
      let out := generate_image env.gen fp
      match out.result with
      | GenResult.success u =>
        { nextState := States.ITERATING_IMAGE, store := store,
          msgs := out.msgs ++ [Msg.photo u successCaptionText], actions := out.actions }
      | GenResult.error _ =>
        { nextState := States.ITERATING_IMAGE, store := store,
          msgs := out.msgs ++ [Msg.text genErrorText], actions := out.actions }

/-- `handle_prompt_choice`: invalid input re-prompts and stays; "2" replays
`handle_initial_prompt` on the stored original prompt; "1"/"3" store the
chosen prompt as `final_prompt` and ask the reference question.  `none`
models the uncaught Python `KeyError` when a required dict key is absent
(no session entry, or missing original/enhanced prompt). -/
def handle_prompt_choice (env : Env) (user_choice : String) (store : Option Session) :
    Option StepOut :=
  if user_choice ∉ (["1", "2", "3"] : List String) then
    some { nextState := States.CHOOSING_PROMPT, store := store,
           msgs := [Msg.text repromptChoosingText], actions := [] }
  else
    match store with
    | none => none
    | some s =>
      if user_choice = "2" then
        match s.originalPrompt with
        | none => none
        | some op => some (handle_initial_prompt env op store)
      else
        match (if user_choice = "1" then s.enhancedPrompt else s.originalPrompt) with
        | none => none
        | some chosen =>
          some { nextState := States.REFERENCE_CHOICE,
                 store := some { s with finalPrompt := some chosen },
                 msgs := [Msg.text referenceQuestionText], actions := [] }

/-- `handle_reference_choice`: invalid input re-prompts and stays; "1" asks
for the photo and moves to `AWAITING_REFERENCE`; "2" runs
`start_image_generation` directly. -/
def handle_reference_choice (env : Env) (user_choice : String) (store : Option Session) :
    StepOut :=
  if user_choice ∉ (["1", "2"] : List String) then
    { nextState := States.REFERENCE_CHOICE, store := store,
      msgs := [Msg.text repromptReferenceText], actions := [] }
  else if user_choice = "1" then
    { nextState := States.AWAITING_REFERENCE, store := store,
      msgs := [Msg.text uploadRequestText], actions := [] }
  else
    start_image_generation env store

/-- `handle_reference_image`: if the session entry is absent or lacks
`final_prompt`, reply with the lost-track message and restart at
`INITIAL_PROMPT` without touching the store; otherwise resolve the photo's
file path via `get_file`, store the reference image and run
`start_image_generation`. -/
def handle_reference_image (env : Env) (fileId : String) (store : Option Session) :
    StepOut :=
  match store with
  | none =>
    { nextState := States.INITIAL_PROMPT, store := store,
      msgs := [Msg.text lostTrackText], actions := [] }
  | some s =>
    match s.finalPrompt with
    | none =>
      { nextState := States.INITIAL_PROMPT, store := store,
        msgs := [Msg.text lostTrackText], actions := [] }
    | some _ =>
      let filePath := env.getFile fileId
      start_image_generation env
        (some { s with referenceImage := some { fileId := fileId, filePath := filePath } })

/-- `handle_image_iteration`: invalid input re-prompts and stays; "1" reruns
`start_image_generation`; "2" resets the session to
`{'original_prompt': session.get('original_prompt', '')}` and restarts at
`INITIAL_PROMPT`.  `none` models the uncaught `KeyError` of
`self.user_data[user_id]` when no session entry exists on choice "2". -/
def handle_image_iteration (env : Env) (user_choice : String) (store : Option Session) :
    Option StepOut :=
  if user_choice ∉ (["1", "2"] : List String) then
    some { nextState := States.ITERATING_IMAGE, store := store,
           msgs := [Msg.text repromptIterationText], actions := [] }
  else if user_choice = "1" then
    some (start_image_generation env store)
  else
    match store with
    | none => none
    | some s =>
      some { nextState := States.INITIAL_PROMPT,
             store := some { originalPrompt := some (s.originalPrompt.getD ""),
                             enhancedPrompt := none, finalPrompt := none,
                             referenceImage := none, generatedImages := none },
             msgs := [Msg.text newPromptText], actions := [] }

/-- `handle_image_generation` (src/bot.py lines 227-278).  This handler is
registered nowhere (the dispatch table in `main` maps `GENERATING_IMAGE` to
`start_image_generation`), and both of its generation calls omit the
required `message_obj` parameter of `generate_image` /
`generate_image_with_reference`, so in Python each call raises `TypeError`
at the call site, inside the `try`; control therefore always reaches the
`except` branch, which sends the double-newline two-choice error message
and returns `GENERATING_IMAGE` with the session untouched and no remote
call made. -/
def handle_image_generation (store : Option Session) : StepOut :=
  { nextState := States.GENERATING_IMAGE, store := store,
    msgs := [Msg.text higErrorText], actions := [] }

/-- Inbound message payloads reaching the conversation handlers (commands
are excluded by the `~filters.COMMAND` filters; `/cancel` ends the
conversation and `/start` only enters it). -/
inductive Input where
  | text (body : String)
  | photo (fileId : String)

/-- The per-state dispatch of the `ConversationHandler` in `main`:
each state maps an inbound update to its registered handler.
`GENERATING_IMAGE` is registered with `filters.ALL`, hence accepts both
payload shapes, and is wired to `start_image_generation` (not to
`handle_image_generation`).  Updates with no matching handler are dropped
by the framework (`none` here); `none` also models a handler crash. -/
def step (env : Env) : States → Input → Option Session → Option StepOut
  | States.INITIAL_PROMPT, Input.text t, store => some (handle_initial_prompt env t store)
  | States.CHOOSING_PROMPT, Input.text t, store => handle_prompt_choice env t store
  | States.REFERENCE_CHOICE, Input.text t, store =>
      some (handle_reference_choice env t store)
  | States.AWAITING_REFERENCE, Input.photo fid, store =>
      some (handle_reference_image env fid store)
  | States.GENERATING_IMAGE, _, store => some (start_image_generation env store)
  | States.ITERATING_IMAGE, Input.text t, store => handle_image_iteration env t store
  | _, _, _ => none

/-- Configurations of the conversation reachable from a fresh session:
`/start` enters at `INITIAL_PROMPT` with no session-store entry, and each
subsequent inbound message performs one `step` under some oracle
environment. -/
inductive Reachable : States → Option Session → Prop where
  | init : Reachable States.INITIAL_PROMPT none
  | step (env : Env) (inp : Input) {st : States} {store : Option Session} (out : StepOut) :
      Reachable st store → step env st inp store = some out →
      Reachable out.nextState out.store

theorem start_image_generation_shape (env : Env) (store : Option Session) :
    (start_image_generation env store).nextState = States.ITERATING_IMAGE ∧
    (start_image_generation env store).store = store := by
  simp only [start_image_generation]
  split <;> split
  all_goals first
    | (split <;> simp)
    | simp

theorem handle_initial_prompt_shape (env : Env) (t : String) (store : Option Session) :
    (handle_initial_prompt env t store).nextState = States.INITIAL_PROMPT ∨
    (handle_initial_prompt env t store).nextState = States.CHOOSING_PROMPT := by
  unfold handle_initial_prompt
  cases env.improve with
  | exn => left; rfl
  | resp code errField improved =>
    by_cases h : code ≠ 200
    · by_cases h2 : strContains errField.toLower "too long" <;> simp [h, h2]
    · simp [h]


/-- C1. In every configuration reachable from a fresh session, whenever the
conversation state is `REFERENCE_CHOICE`, `AWAITING_REFERENCE`,
`GENERATING_IMAGE` or `ITERATING_IMAGE`, the session entry exists and its
`final_prompt` key is set. -/
theorem c1_finalPrompt_defined_in_post_choice_states :
    ∀ (st : States) (store : Option Session), Reachable st store →
    (st = States.REFERENCE_CHOICE ∨ st = States.AWAITING_REFERENCE ∨
     st = States.GENERATING_IMAGE ∨ st = States.ITERATING_IMAGE) →
    ∃ s p, store = some s ∧ s.finalPrompt = some p := by
  intro st store hr
  induction hr with
  | init =>
    intro h
    rcases h with h | h | h | h <;> simp at h
  | step env inp out hr hstep ih =>
    rename_i st store
    cases st <;> cases inp <;>
      simp only [step, Option.some.injEq] at hstep <;>
      try exact Option.noConfusion hstep
    -- INITIAL_PROMPT, text
    · rename_i t
      subst hstep
      intro hfour
      rcases handle_initial_prompt_shape env t store with h | h <;>
        rw [h] at hfour <;> rcases hfour with h' | h' | h' | h' <;> simp at h'
    -- CHOOSING_PROMPT, text
    · rename_i t
      unfold handle_prompt_choice at hstep
      by_cases hv : t ∈ (["1", "2", "3"] : List String)
      case neg =>
        rw [if_pos hv] at hstep
        simp only [Option.some.injEq] at hstep
        subst hstep
        intro hfour
        rcases hfour with h' | h' | h' | h' <;> simp at h'
      case pos =>
        rw [if_neg (not_not_intro hv)] at hstep
        cases store with
        | none => simp at hstep
        | some s =>
          dsimp only at hstep
          by_cases h2 : t = "2"
          · rw [if_pos h2] at hstep
            cases hop : s.originalPrompt with
            | none => rw [hop] at hstep; simp at hstep
            | some op =>
              rw [hop] at hstep
              simp only [Option.some.injEq] at hstep
              subst hstep
              intro hfour
              rcases handle_initial_prompt_shape env op (some s) with h | h <;>
                rw [h] at hfour <;> rcases hfour with h' | h' | h' | h' <;> simp at h'
          · rw [if_neg h2] at hstep
            cases hch : (if t = "1" then s.enhancedPrompt else s.originalPrompt) with
            | none => rw [hch] at hstep; simp at hstep
            | some chosen =>
              rw [hch] at hstep
              simp only [Option.some.injEq] at hstep
              subst hstep
              intro _
              exact ⟨{ s with finalPrompt := some chosen }, chosen, rfl, rfl⟩
    -- REFERENCE_CHOICE, text
    · rename_i t
      unfold handle_reference_choice at hstep
      have hfin := ih (Or.inl rfl)
      by_cases hv : t ∈ (["1", "2"] : List String)
      case neg =>
        rw [if_pos hv] at hstep
        subst hstep
        intro _
        exact hfin
      case pos =>
        rw [if_neg (not_not_intro hv)] at hstep
        by_cases h1 : t = "1"
        · rw [if_pos h1] at hstep
          subst hstep
          intro _
          exact hfin
        · rw [if_neg h1] at hstep
          subst hstep
          intro _
          obtain ⟨-, hst⟩ := start_image_generation_shape env store
          rw [hst]
          exact hfin
    -- AWAITING_REFERENCE, photo
    · rename_i fid
      unfold handle_reference_image at hstep
      cases store with
      | none =>
        simp only at hstep
        subst hstep
        intro hfour
        rcases hfour with h' | h' | h' | h' <;> simp at h'
      | some s =>
        dsimp only at hstep
        cases hfp : s.finalPrompt with
        | none =>
          rw [hfp] at hstep
          simp only at hstep
          subst hstep
          intro hfour
          rcases hfour with h' | h' | h' | h' <;> simp at h'
        | some fp =>
          rw [hfp] at hstep
          simp only at hstep
          subst hstep
          intro _
          obtain ⟨-, hst⟩ := start_image_generation_shape env (some { originalPrompt := s.originalPrompt, enhancedPrompt := s.enhancedPrompt, finalPrompt := some fp, referenceImage := some { fileId := fid, filePath := env.getFile fid }, generatedImages := s.generatedImages })
          rw [hst]
          exact ⟨_, fp, rfl, rfl⟩
    -- GENERATING_IMAGE, text
    · subst hstep
      intro _
      obtain ⟨-, hst⟩ := start_image_generation_shape env store
      rw [hst]
      exact ih (Or.inr (Or.inr (Or.inl rfl)))
    -- GENERATING_IMAGE, photo
    · subst hstep
      intro _
      obtain ⟨-, hst⟩ := start_image_generation_shape env store
      rw [hst]
      exact ih (Or.inr (Or.inr (Or.inl rfl)))
    -- ITERATING_IMAGE, text
    · rename_i t
      unfold handle_image_iteration at hstep
      have hfin := ih (Or.inr (Or.inr (Or.inr rfl)))
      by_cases hv : t ∈ (["1", "2"] : List String)
      case neg =>
        rw [if_pos hv] at hstep
        simp only [Option.some.injEq] at hstep
        subst hstep
        intro _
        exact hfin
      case pos =>
        rw [if_neg (not_not_intro hv)] at hstep
        by_cases h1 : t = "1"
        · rw [if_pos h1] at hstep
          simp only [Option.some.injEq] at hstep
          subst hstep
          intro _
          obtain ⟨-, hst⟩ := start_image_generation_shape env store
          rw [hst]
          exact hfin
        · rw [if_neg h1] at hstep
          cases store with
          | none => simp at hstep
          | some s =>
            dsimp only at hstep
            simp only [Option.some.injEq] at hstep
            subst hstep
            intro hfour
            rcases hfour with h' | h' | h' | h' <;> simp at h'

/-- Oracle for the C1 witness run: improvement succeeds. -/
def c1WitEnv : Env :=
  { improve := ImproveOutcome.resp 200 "" "an enhanced frog",
    gen := { submitStatus := 200, generationId := "job-6",
             poll := fun _ => { statusCode := 200, jobStatus := some "COMPLETE",
                                generatedImages := ["http://img/d.png"] } },
    genRef := { initStatus := 200, imageId := "img-3", fetchStatus := 200, s3Status := 204,
                submitStatus := 200, generationId := "job-7",
                finalCheck := { statusCode := 200, jobStatus := some "COMPLETE",
                                generatedImages := ["http://img/d.png"] } },
    getFile := fun _ => "photos/file_1.jpg" }

/-- Session after the first step of the C1 witness run. -/
def c1WitS1 : Session :=
  { originalPrompt := some "a frog", enhancedPrompt := some "an enhanced frog",
    finalPrompt := none, referenceImage := none, generatedImages := none }

/-- Session after the second step of the C1 witness run. -/
def c1WitS2 : Session :=
  { originalPrompt := some "a frog", enhancedPrompt := some "an enhanced frog",
    finalPrompt := some "an enhanced frog", referenceImage := none, generatedImages := none }

/-- Witness for C1: a concrete two-step run reaching `REFERENCE_CHOICE`,
whose session has `finalPrompt` defined. -/
theorem c1_finalPrompt_defined_witness :
    ∃ s p, (some c1WitS2 : Option Session) = some s ∧ s.finalPrompt = some p := by
  have h0 : Reachable States.INITIAL_PROMPT none := Reachable.init
  have h1 : Reachable States.CHOOSING_PROMPT (some c1WitS1) :=
    Reachable.step c1WitEnv (Input.text "a frog")
      ⟨States.CHOOSING_PROMPT, some c1WitS1,
        [Msg.text (promptChoiceText "a frog" "an enhanced frog")],
        [RemoteAction.improvePrompt]⟩ h0 rfl
  have h2 : Reachable States.REFERENCE_CHOICE (some c1WitS2) :=
    Reachable.step c1WitEnv (Input.text "1")
      ⟨States.REFERENCE_CHOICE, some c1WitS2, [Msg.text referenceQuestionText], []⟩ h1 rfl
  exact c1_finalPrompt_defined_in_post_choice_states States.REFERENCE_CHOICE
    (some c1WitS2) h2 (Or.inl rfl)

/-- C6. Choosing "2" (modify the prompt) in `ITERATING_IMAGE` resets the
session to a record that keeps `original_prompt` unchanged and drops
`enhanced_prompt`, `final_prompt`, `reference_image` and
`generated_images`, replies with the new-prompt request, and moves to
`INITIAL_PROMPT`. -/
theorem c6_modify_prompt_resets_session :
    ∀ (env : Env) (s : Session) (p : String), s.originalPrompt = some p →
    handle_image_iteration env "2" (some s) =
      some { nextState := States.INITIAL_PROMPT,
             store := some { originalPrompt := some p, enhancedPrompt := none,
                             finalPrompt := none, referenceImage := none,
                             generatedImages := none },
             msgs := [Msg.text newPromptText], actions := [] } := by
  intro env s p hp
  unfold handle_image_iteration
  rw [if_neg (by decide : ¬(("2" : String) ∉ (["1", "2"] : List String)))]
  rw [if_neg (by decide : ¬(("2" : String) = "1"))]
  simp [hp]

/-- Oracle for the C6 witness (never consulted on choice "2"). -/
def c6WitEnv : Env :=
  { improve := ImproveOutcome.exn,
    gen := { submitStatus := 500, generationId := "job-8", poll := fun _ =>
      { statusCode := 500, jobStatus := none, generatedImages := [] } },
    genRef := { initStatus := 500, imageId := "img-4", fetchStatus := 500, s3Status := 500,
                submitStatus := 500, generationId := "job-9",
                finalCheck := { statusCode := 500, jobStatus := none, generatedImages := [] } },
    getFile := fun _ => "photos/file_2.jpg" }

/-- A fully populated session for the C6 witness. -/
def c6WitSession : Session :=
  { originalPrompt := some "a frog", enhancedPrompt := some "an enhanced frog",
    finalPrompt := some "an enhanced frog",
    referenceImage := some { fileId := "f-1", filePath := "photos/file_2.jpg" },
    generatedImages := some ["http://img/d.png"] }

/-- Witness for C6 on a fully populated session. -/
theorem c6_modify_prompt_resets_session_witness :
    handle_image_iteration c6WitEnv "2" (some c6WitSession) =
      some { nextState := States.INITIAL_PROMPT,
             store := some { originalPrompt := some "a frog", enhancedPrompt := none,
                             finalPrompt := none, referenceImage := none,
                             generatedImages := none },
             msgs := [Msg.text newPromptText], actions := [] } :=
  c6_modify_prompt_resets_session c6WitEnv c6WitSession "a frog" rfl

/-- C7. In each choice-gated state (`CHOOSING_PROMPT`, `REFERENCE_CHOICE`,
`ITERATING_IMAGE`), any text outside the state's enumerated choice set
makes the handler return the same state, leave the session entry exactly as
it was, perform no remote call, and send that state's fixed choice
re-prompt. -/
theorem c7_invalid_choice_keeps_state_and_session :
    (∀ (env : Env) (t : String) (store : Option Session),
      t ∉ (["1", "2", "3"] : List String) →
      handle_prompt_choice env t store =
        some { nextState := States.CHOOSING_PROMPT, store := store,
               msgs := [Msg.text repromptChoosingText], actions := [] }) ∧
    (∀ (env : Env) (t : String) (store : Option Session),
      t ∉ (["1", "2"] : List String) →
      handle_reference_choice env t store =
        { nextState := States.REFERENCE_CHOICE, store := store,
          msgs := [Msg.text repromptReferenceText], actions := [] }) ∧
    (∀ (env : Env) (t : String) (store : Option Session),
      t ∉ (["1", "2"] : List String) →
      handle_image_iteration env t store =
        some { nextState := States.ITERATING_IMAGE, store := store,
               msgs := [Msg.text repromptIterationText], actions := [] }) := by
  refine ⟨?_, ?_, ?_⟩
  · intro env t store h
    unfold handle_prompt_choice
    rw [if_pos h]
  · intro env t store h
    unfold handle_reference_choice
    rw [if_pos h]
  · intro env t store h
    unfold handle_image_iteration
    rw [if_pos h]

/-- Witness for C7 at the invalid input "4" in each of the three states. -/
theorem c7_invalid_choice_keeps_state_and_session_witness :
    handle_prompt_choice c6WitEnv "4" (some c6WitSession) =
      some { nextState := States.CHOOSING_PROMPT, store := some c6WitSession,
             msgs := [Msg.text repromptChoosingText], actions := [] } ∧
    handle_reference_choice c6WitEnv "4" (some c6WitSession) =
      { nextState := States.REFERENCE_CHOICE, store := some c6WitSession,
        msgs := [Msg.text repromptReferenceText], actions := [] } ∧
    handle_image_iteration c6WitEnv "4" (some c6WitSession) =
      some { nextState := States.ITERATING_IMAGE, store := some c6WitSession,
             msgs := [Msg.text repromptIterationText], actions := [] } :=
  ⟨c7_invalid_choice_keeps_state_and_session.1 c6WitEnv "4" (some c6WitSession) (by decide),
   c7_invalid_choice_keeps_state_and_session.2.1 c6WitEnv "4" (some c6WitSession) (by decide),
   c7_invalid_choice_keeps_state_and_session.2.2 c6WitEnv "4" (some c6WitSession) (by decide)⟩

/-- C9. A photo arriving in `AWAITING_REFERENCE` for an absent session
entry, or for a session without `final_prompt`, stores nothing (the entry
is unchanged), performs no remote call (in particular no generation), and
returns the conversation to `INITIAL_PROMPT` with the lost-track
message. -/
theorem c9_missing_prompt_soft_fails_to_initial :
    (∀ (env : Env) (fid : String),
      handle_reference_image env fid none =
        { nextState := States.INITIAL_PROMPT, store := none,
          msgs := [Msg.text lostTrackText], actions := [] }) ∧
    (∀ (env : Env) (fid : String) (s : Session), s.finalPrompt = none →
      handle_reference_image env fid (some s) =
        { nextState := States.INITIAL_PROMPT, store := some s,
          msgs := [Msg.text lostTrackText], actions := [] }) := by
  constructor
  · intro env fid
    rfl
  · intro env fid s hfp
    unfold handle_reference_image
    dsimp only
    rw [hfp]

/-- A session that never passed the prompt choice, for the C9 witness. -/
def c9WitSession : Session :=
  { originalPrompt := some "a frog", enhancedPrompt := some "an enhanced frog",
    finalPrompt := none, referenceImage := none, generatedImages := none }

/-- Witness for C9 on a session lacking `final_prompt`. -/
theorem c9_missing_prompt_soft_fails_witness :
    handle_reference_image c6WitEnv "f-2" (some c9WitSession) =
      { nextState := States.INITIAL_PROMPT, store := some c9WitSession,
        msgs := [Msg.text lostTrackText], actions := [] } :=
  c9_missing_prompt_soft_fails_to_initial.2 c6WitEnv "f-2" c9WitSession rfl

/-- Oracle for the C8 scenario: refinement succeeds and the mock generation
job completes on the first poll with image `http://img/1.png`. -/
def c8Env : Env :=
  { improve := ImproveOutcome.resp 200 "" "a detailed pixel-art frog astronaut",
    gen := { submitStatus := 200, generationId := "job-10",
             poll := fun _ => { statusCode := 200, jobStatus := some "COMPLETE",
                                generatedImages := ["http://img/1.png"] } },
    genRef := { initStatus := 200, imageId := "img-5", fetchStatus := 200, s3Status := 204,
                submitStatus := 200, generationId := "job-11",
                finalCheck := { statusCode := 200, jobStatus := some "COMPLETE",
                                generatedImages := ["http://img/1.png"] } },
    getFile := fun _ => "photos/file_3.jpg" }

/-- Session of the C8 scenario after the initial prompt was enhanced. -/
def c8S1 : Session :=
  { originalPrompt := some "a pixel-art frog astronaut",
    enhancedPrompt := some "a detailed pixel-art frog astronaut",
    finalPrompt := none, referenceImage := none, generatedImages := none }

/-- Session of the C8 scenario after the user chose the enhanced prompt. -/
def c8S2 : Session :=
  { originalPrompt := some "a pixel-art frog astronaut",
    enhancedPrompt := some "a detailed pixel-art frog astronaut",
    finalPrompt := some "a detailed pixel-art frog astronaut",
    referenceImage := none, generatedImages := none }

/-- C8 counterexample. In the claimed scenario (refinement succeeds, user
replies "1" then "2", generation completes on the first poll with
`http://img/1.png`) the final step sends the processing notice and the
photo whose caption is the TWO-choice follow-up `successCaptionText`; the
three-choice follow-up `followUpText` is not among the sent messages, so
the bot does not send the photo "followed by the 3-choice follow-up" as
claimed. -/
theorem c8_counterexample :
    step c8Env States.INITIAL_PROMPT (Input.text "a pixel-art frog astronaut") none =
      some { nextState := States.CHOOSING_PROMPT, store := some c8S1,
             msgs := [Msg.text (promptChoiceText "a pixel-art frog astronaut"
               "a detailed pixel-art frog astronaut")],
             actions := [RemoteAction.improvePrompt] } ∧
    step c8Env States.CHOOSING_PROMPT (Input.text "1") (some c8S1) =
      some { nextState := States.REFERENCE_CHOICE, store := some c8S2,
             msgs := [Msg.text referenceQuestionText], actions := [] } ∧
    step c8Env States.REFERENCE_CHOICE (Input.text "2") (some c8S2) =
      some { nextState := States.ITERATING_IMAGE, store := some c8S2,
             msgs := [Msg.text processingScratchText,
                      Msg.photo "http://img/1.png" successCaptionText],
             actions := [RemoteAction.submitGeneration, RemoteAction.pollStatus 0] } ∧
    Msg.text followUpText ∉
      [Msg.text processingScratchText, Msg.photo "http://img/1.png" successCaptionText] ∧
    successCaptionText ≠ followUpText :=
  ⟨rfl, rfl, rfl, by decide, by decide⟩

/-- C8 amended. In the scenario (refinement succeeds, user replies "1" then
"2", mock generation completes on the first poll with `http://img/1.png`)
the bot sends the processing notice and that image as a photo whose caption
carries the two-choice follow-up ("1 Try again / 2 Modify the prompt"), and
the resulting conversation state is `ITERATING_IMAGE`. -/
theorem c8_scenario_photo_with_two_choice_caption :
    step c8Env States.INITIAL_PROMPT (Input.text "a pixel-art frog astronaut") none =
      some { nextState := States.CHOOSING_PROMPT, store := some c8S1,
             msgs := [Msg.text (promptChoiceText "a pixel-art frog astronaut"
               "a detailed pixel-art frog astronaut")],
             actions := [RemoteAction.improvePrompt] } ∧
    step c8Env States.CHOOSING_PROMPT (Input.text "1") (some c8S1) =
      some { nextState := States.REFERENCE_CHOICE, store := some c8S2,
             msgs := [Msg.text referenceQuestionText], actions := [] } ∧
    step c8Env States.REFERENCE_CHOICE (Input.text "2") (some c8S2) =
      some { nextState := States.ITERATING_IMAGE, store := some c8S2,
             msgs := [Msg.text processingScratchText,
                      Msg.photo "http://img/1.png" successCaptionText],
             actions := [RemoteAction.submitGeneration, RemoteAction.pollStatus 0] } :=
  ⟨rfl, rfl, rfl⟩

/-- C10 amended. `handle_image_generation` and `start_image_generation` are
not observationally equivalent: for every session entry and every oracle,
`handle_image_generation` sends the fixed double-newline two-choice error
message, performs no remote call, leaves the session unchanged and returns
`GENERATING_IMAGE` (its generation calls lack the required `message_obj`
argument and raise `TypeError`), whereas `start_image_generation` always
returns `ITERATING_IMAGE` (also leaving the session unchanged). -/
theorem c10_generation_paths_diverge :
    ∀ (env : Env) (store : Option Session),
      handle_image_generation store =
        { nextState := States.GENERATING_IMAGE, store := store,
          msgs := [Msg.text higErrorText], actions := [] } ∧
      (start_image_generation env store).nextState = States.ITERATING_IMAGE ∧
      (start_image_generation env store).store = store := by
  intro env store
  exact ⟨rfl, (start_image_generation_shape env store).1,
    (start_image_generation_shape env store).2⟩

/-- Oracle for the C10 counterexample: generation succeeds immediately. -/
def c10Env : Env :=
  { improve := ImproveOutcome.resp 200 "" "an enhanced frog",
    gen := { submitStatus := 200, generationId := "job-12",
             poll := fun _ => { statusCode := 200, jobStatus := some "COMPLETE",
                                generatedImages := ["http://img/e.png"] } },
    genRef := { initStatus := 200, imageId := "img-6", fetchStatus := 200, s3Status := 204,
                submitStatus := 200, generationId := "job-13",
                finalCheck := { statusCode := 200, jobStatus := some "COMPLETE",
                                generatedImages := ["http://img/e.png"] } },
    getFile := fun _ => "photos/file_4.jpg" }

/-- Session with a final prompt and no reference, for the C10
counterexample. -/
def c10Session : Session :=
  { originalPrompt := some "a frog", enhancedPrompt := some "an enhanced frog",
    finalPrompt := some "an enhanced frog", referenceImage := none,
    generatedImages := none }

/-- C10 counterexample. On the same session and mocked remote responses the
two functions observably differ: different next state and different sent
messages, hence not identical behavior. -/
theorem c10_counterexample :
    (handle_image_generation (some c10Session)).nextState = States.GENERATING_IMAGE ∧
    (start_image_generation c10Env (some c10Session)).nextState = States.ITERATING_IMAGE ∧
    (handle_image_generation (some c10Session)).msgs ≠
      (start_image_generation c10Env (some c10Session)).msgs ∧
    handle_image_generation (some c10Session) ≠
      start_image_generation c10Env (some c10Session) :=
  ⟨rfl, rfl, by decide, by decide⟩
